import Mathlib

/-!
Shallow embedding of the Marketing_Agents backend (src/backend/main.py).

The backend orchestrates two external services behind two FastAPI POST
handlers: a SimilarWeb scraping actor reached through the Apify job API
(class ApifyClient) and the BuiltWith technology-fingerprinting API
(class BuiltWithClient), with mock-data fallbacks and a Supabase
persistence sink.

Modelling conventions:
- JSON values are the inductive `Json` below; Python dicts are
  association lists with distinct keys, Python ints are `Int`, Python
  floats are `Rat` (only stored and compared, never rounded, so exact
  rationals are faithful), Python strings are `String`.
- Python string operations are re-implemented over `List Char`
  (`replaceAll`, `containsSub`, `Char.toLower`) so they evaluate in the
  kernel; `String.replace` semantics (replace every non-overlapping
  occurrence, left to right) are mirrored by `replaceAll`.
- Network calls are abstracted into explicit input data: the Apify run
  is an `ApifyRunEnv` (creation status, the status observed at each
  poll, the dataset fetch outcome), a BuiltWith call is a
  `BuiltWithApiOutcome`.  The handlers additionally return the list of
  external `Effect`s they perform, so statements about what is or is
  not called are expressible.
- Exceptions become `Except` values; pydantic validation of a raw
  record becomes an `Option`-returning field-by-field decoder.
-/

/-- JSON values as produced by `response.json()` / `json.loads` and
consumed by `json.dumps`.  Python ints and floats are kept apart
because Python round-trips them separately. -/
inductive Json where
  | null
  | bool (b : Bool)
  | int (n : Int)
  | float (q : Rat)
  | str (s : String)
  | arr (elems : List Json)
  | obj (fields : List (String × Json))

/-- Pydantic model `TrafficSources` (main.py lines 53-60). -/
structure TrafficSources where
  directVisitsShare : Rat
  organicSearchVisitsShare : Rat
  referralVisitsShare : Rat
  socialNetworksVisitsShare : Rat
  mailVisitsShare : Rat
  paidSearchVisitsShare : Rat
  adsVisitsShare : Rat
deriving DecidableEq

/-- Pydantic model `TopCountry` (main.py lines 62-65). -/
structure TopCountry where
  countryAlpha2Code : String
  visitsShare : Rat
  visitsShareChange : Rat
deriving DecidableEq

/-- Pydantic model `TopKeyword` (main.py lines 67-71). -/
structure TopKeyword where
  name : String
  volume : Int
  estimatedValue : Int
  cpc : Rat
deriving DecidableEq

/-- Pydantic model `SocialNetworkDistribution` (main.py lines 73-75). -/
structure SocialNetworkDistribution where
  name : String
  visitsShare : Rat
deriving DecidableEq

/-- Pydantic model `TopSimilarityCompetitor` (main.py lines 77-81). -/
structure TopSimilarityCompetitor where
  domain : String
  visitsTotalCount : Int
  affinity : Rat
  categoryRank : Option Int := none
deriving DecidableEq

/-- Pydantic model `Technology` (main.py lines 84-86). -/
structure Technology where
  name : String
  tag : String
deriving DecidableEq

/-- Pydantic model `BuiltWithResult` (main.py lines 88-90). -/
structure BuiltWithResult where
  domain : String
  technologies : List Technology
deriving DecidableEq

/-- Pydantic model `ApifyResult` (main.py lines 92-112). -/
structure ApifyResult where
  name : String
  globalRank : Int
  countryRank : Int
  categoryRank : Int
  companyName : String
  companyYearFounded : Int
  companyEmployeesMin : Int
  companyEmployeesMax : Option Int := none
  totalVisits : Int
  avgVisitDuration : String
  pagesPerVisit : Rat
  bounceRate : Rat
  trafficSources : TrafficSources
  topCountries : List TopCountry
  topKeywords : List TopKeyword
  socialNetworkDistribution : List SocialNetworkDistribution
  topSimilarityCompetitors : List TopSimilarityCompetitor
  organicTraffic : Rat
  paidTraffic : Rat
  builtwith_result : Option BuiltWithResult := none
deriving DecidableEq

/-- Pydantic model `AnalysisResponse` (main.py lines 118-122). -/
structure AnalysisResponse where
  success : Bool
  data : List ApifyResult
  count : Nat
  note : Option String := none
deriving DecidableEq

/-! ### String utilities (kernel-evaluable re-implementations of the
Python string operations used by main.py) -/

/-- Worker for `replaceAll`, structurally recursive on a fuel argument
so that it evaluates inside the kernel; each step consumes at least one
character, so fuel `l.length` is always enough. -/
def replaceAllFuel (pat rep : List Char) : Nat → List Char → List Char
  | _, [] => []
  | 0, l => l
  | fuel + 1, c :: cs =>
    if pat.isPrefixOf (c :: cs) then
      rep ++ replaceAllFuel pat rep fuel (List.drop (pat.length - 1) cs)
    else c :: replaceAllFuel pat rep fuel cs

/-- Replace every non-overlapping occurrence of `pat` (non-empty) by
`rep`, scanning left to right: the semantics of Python `str.replace`
(and of Lean `String.replace`) lifted to character lists. -/
def replaceAll (pat rep : List Char) (l : List Char) : List Char :=
  replaceAllFuel pat rep l.length l

/-- Python `s.replace(pat, rep)` on strings. -/
def pyReplace (s pat rep : String) : String :=
  ⟨replaceAll pat.data rep.data s.data⟩

/-- Python `s.lower()` (ASCII, which is all the code ever feeds it). -/
def lowerString (s : String) : String :=
  ⟨s.data.map Char.toLower⟩

/-- Does `pat` occur as a contiguous sublist of `l`?  (Python `pat in s`
substring test.) -/
def containsSub (pat : List Char) : List Char → Bool
  | [] => pat.isPrefixOf ([] : List Char)
  | c :: cs => pat.isPrefixOf (c :: cs) || containsSub pat cs

/-- Python `pat in s` on strings. -/
def strContains (s pat : String) : Bool :=
  containsSub pat.data s.data

/-- Association-list lookup, the model of a Python dict access with
string keys (dict literals in main.py all have distinct keys). -/
def lookupStr {α : Type} : List (String × α) → String → Option α
  | [], _ => none
  | (k, v) :: fs, key => if key = k then some v else lookupStr fs key

/-- Python `dict.pop(k, None)`: the association list without key `k`. -/
def popKey : List (String × Json) → String → List (String × Json)
  | [], _ => []
  | kv :: fs, k => if kv.1 = k then popKey fs k else kv :: popKey fs k

/-- Monadic map over `Option`, the model of pydantic validating every
element of a list field (any failing element fails the whole field). -/
def optMapM {α : Type} (g : Json → Option α) : List Json → Option (List α)
  | [] => some []
  | j :: js => do
    let a ← g j
    let as ← optMapM g js
    pure (a :: as)

/-! ### Domain cleaning (BuiltWithClient.analyze_domain, main.py line 350)

`domain.replace("https://", "").replace("http://", "").replace("www.", "")`:
three successive Python `str.replace` calls, each of which removes every
occurrence of its pattern, not only a leading prefix. -/

/-- The cleaned domain key used by the enricher (main.py line 350). -/
def clean_domain (domain : String) : String :=
  pyReplace (pyReplace (pyReplace domain "https://" "") "http://" "") "www." ""

/-- Modelled from the claim wording, for comparison with `clean_domain`:
strip one leading URL scheme and then one leading `www.` prefix,
leaving the rest of the string unchanged. -/
def clean_domain_stripping : String → String := fun s =>
  let l := s.data
  let l1 := if "https://".data.isPrefixOf l then l.drop 8
            else if "http://".data.isPrefixOf l then l.drop 7 else l
  let l2 := if "www.".data.isPrefixOf l1 then l1.drop 4 else l1
  ⟨l2⟩

/-! ### model_dump / pydantic validation

`item.model_dump()` turns a model into nested dicts/lists (Json
below); `Model(**data)` validates nested JSON data back into a model,
failing (raising ValidationError, here `Option.none`) when a required
field is missing or has the wrong shape.  Pydantic v2 lax mode accepts
an integral float for an int field and an int for a float field. -/

/-- Pydantic validation of a `str` field. -/
def jStr? : Json → Option String
  | .str s => some s
  | _ => none

/-- Pydantic validation of an `int` field (floats with integral value
are coerced, bools and everything else rejected). -/
def jInt? : Json → Option Int
  | .int n => some n
  | .float q => if q.den = 1 then some q.num else none
  | _ => none

/-- Pydantic validation of a `float` field (ints are coerced). -/
def jRat? : Json → Option Rat
  | .int n => some (n : Rat)
  | .float q => some q
  | _ => none

/-- Pydantic validation of an `Optional[int]` field whose default is
`None`: an absent key (`none` here) or JSON null become `none`. -/
def jOptInt? : Option Json → Option (Option Int)
  | none => some none
  | some .null => some none
  | some j => (jInt? j).map some

/-- Field lookup inside a dumped model. -/
def jField (fs : List (String × Json)) (k : String) : Option Json :=
  lookupStr fs k

/-- Pydantic validation of a required field. -/
def jReq {α : Type} (g : Json → Option α) (fs : List (String × Json)) (k : String) : Option α :=
  (jField fs k).bind g

/-- Pydantic validation of a required list field. -/
def jList? {α : Type} (g : Json → Option α) (fs : List (String × Json)) (k : String) : Option (List α) :=
  (jField fs k).bind fun j =>
    match j with
    | .arr items => optMapM g items
    | _ => none

def serializeTrafficSources (t : TrafficSources) : Json :=
  .obj [("directVisitsShare", .float t.directVisitsShare),
        ("organicSearchVisitsShare", .float t.organicSearchVisitsShare),
        ("referralVisitsShare", .float t.referralVisitsShare),
        ("socialNetworksVisitsShare", .float t.socialNetworksVisitsShare),
        ("mailVisitsShare", .float t.mailVisitsShare),
        ("paidSearchVisitsShare", .float t.paidSearchVisitsShare),
        ("adsVisitsShare", .float t.adsVisitsShare)]

def parseTrafficSources? : Json → Option TrafficSources
  | .obj fs => do
    let a ← jReq jRat? fs "directVisitsShare"
    let b ← jReq jRat? fs "organicSearchVisitsShare"
    let c ← jReq jRat? fs "referralVisitsShare"
    let d ← jReq jRat? fs "socialNetworksVisitsShare"
    let e ← jReq jRat? fs "mailVisitsShare"
    let f ← jReq jRat? fs "paidSearchVisitsShare"
    let g ← jReq jRat? fs "adsVisitsShare"
    pure ⟨a, b, c, d, e, f, g⟩
  | _ => none

def serializeTopCountry (t : TopCountry) : Json :=
  .obj [("countryAlpha2Code", .str t.countryAlpha2Code),
        ("visitsShare", .float t.visitsShare),
        ("visitsShareChange", .float t.visitsShareChange)]

def parseTopCountry? : Json → Option TopCountry
  | .obj fs => do
    let a ← jReq jStr? fs "countryAlpha2Code"
    let b ← jReq jRat? fs "visitsShare"
    let c ← jReq jRat? fs "visitsShareChange"
    pure ⟨a, b, c⟩
  | _ => none

def serializeTopKeyword (t : TopKeyword) : Json :=
  .obj [("name", .str t.name),
        ("volume", .int t.volume),
        ("estimatedValue", .int t.estimatedValue),
        ("cpc", .float t.cpc)]

def parseTopKeyword? : Json → Option TopKeyword
  | .obj fs => do
    let a ← jReq jStr? fs "name"
    let b ← jReq jInt? fs "volume"
    let c ← jReq jInt? fs "estimatedValue"
    let d ← jReq jRat? fs "cpc"
    pure ⟨a, b, c, d⟩
  | _ => none

def serializeSocialNetworkDistribution (t : SocialNetworkDistribution) : Json :=
  .obj [("name", .str t.name), ("visitsShare", .float t.visitsShare)]

def parseSocialNetworkDistribution? : Json → Option SocialNetworkDistribution
  | .obj fs => do
    let a ← jReq jStr? fs "name"
    let b ← jReq jRat? fs "visitsShare"
    pure ⟨a, b⟩
  | _ => none

def serializeTopSimilarityCompetitor (t : TopSimilarityCompetitor) : Json :=
  .obj [("domain", .str t.domain),
        ("visitsTotalCount", .int t.visitsTotalCount),
        ("affinity", .float t.affinity),
        ("categoryRank", match t.categoryRank with | some n => .int n | none => .null)]

def parseTopSimilarityCompetitor? : Json → Option TopSimilarityCompetitor
  | .obj fs => do
    let a ← jReq jStr? fs "domain"
    let b ← jReq jInt? fs "visitsTotalCount"
    let c ← jReq jRat? fs "affinity"
    let d ← jOptInt? (jField fs "categoryRank")
    pure ⟨a, b, c, d⟩
  | _ => none

def serializeTechnology (t : Technology) : Json :=
  .obj [("name", .str t.name), ("tag", .str t.tag)]

def parseTechnology? : Json → Option Technology
  | .obj fs => do
    let a ← jReq jStr? fs "name"
    let b ← jReq jStr? fs "tag"
    pure ⟨a, b⟩
  | _ => none

def serializeBuiltWithResult (t : BuiltWithResult) : Json :=
  .obj [("domain", .str t.domain),
        ("technologies", .arr (t.technologies.map serializeTechnology))]

def parseBuiltWithResult? : Json → Option BuiltWithResult
  | .obj fs => do
    let a ← jReq jStr? fs "domain"
    let b ← jList? parseTechnology? fs "technologies"
    pure ⟨a, b⟩
  | _ => none

def serializeApifyResult (r : ApifyResult) : Json :=
  .obj [("name", .str r.name),
        ("globalRank", .int r.globalRank),
        ("countryRank", .int r.countryRank),
        ("categoryRank", .int r.categoryRank),
        ("companyName", .str r.companyName),
        ("companyYearFounded", .int r.companyYearFounded),
        ("companyEmployeesMin", .int r.companyEmployeesMin),
        ("companyEmployeesMax", match r.companyEmployeesMax with | some n => .int n | none => .null),
        ("totalVisits", .int r.totalVisits),
        ("avgVisitDuration", .str r.avgVisitDuration),
        ("pagesPerVisit", .float r.pagesPerVisit),
        ("bounceRate", .float r.bounceRate),
        ("trafficSources", serializeTrafficSources r.trafficSources),
        ("topCountries", .arr (r.topCountries.map serializeTopCountry)),
        ("topKeywords", .arr (r.topKeywords.map serializeTopKeyword)),
        ("socialNetworkDistribution", .arr (r.socialNetworkDistribution.map serializeSocialNetworkDistribution)),
        ("topSimilarityCompetitors", .arr (r.topSimilarityCompetitors.map serializeTopSimilarityCompetitor)),
        ("organicTraffic", .float r.organicTraffic),
        ("paidTraffic", .float r.paidTraffic),
        ("builtwith_result", match r.builtwith_result with | some b => serializeBuiltWithResult b | none => .null)]

/-- Pydantic validation of an `Optional[BuiltWithResult]` field with
default `None`. -/
def jOptBuiltWith? : Option Json → Option (Option BuiltWithResult)
  | none => some none
  | some .null => some none
  | some j => (parseBuiltWithResult? j).map some

/-- First group of `ApifyResult` fields, used to keep each validation
chain short (long `Option` bind chains elaborate very slowly). -/
structure ApifyFieldsA where
  name : String
  globalRank : Int
  countryRank : Int
  categoryRank : Int
  companyName : String
  companyYearFounded : Int
  companyEmployeesMin : Int

/-- Second group of `ApifyResult` fields. -/
structure ApifyFieldsB where
  companyEmployeesMax : Option Int
  totalVisits : Int
  avgVisitDuration : String
  pagesPerVisit : Rat
  bounceRate : Rat
  trafficSources : TrafficSources

/-- Third group of `ApifyResult` fields. -/
structure ApifyFieldsC where
  topCountries : List TopCountry
  topKeywords : List TopKeyword
  socialNetworkDistribution : List SocialNetworkDistribution
  topSimilarityCompetitors : List TopSimilarityCompetitor

/-- Fourth group of `ApifyResult` fields. -/
structure ApifyFieldsD where
  organicTraffic : Rat
  paidTraffic : Rat
  builtwith_result : Option BuiltWithResult

def parseApifyFieldsA? (fs : List (String × Json)) : Option ApifyFieldsA := do
  let name ← jReq jStr? fs "name"
  let globalRank ← jReq jInt? fs "globalRank"
  let countryRank ← jReq jInt? fs "countryRank"
  let categoryRank ← jReq jInt? fs "categoryRank"
  let companyName ← jReq jStr? fs "companyName"
  let companyYearFounded ← jReq jInt? fs "companyYearFounded"
  let companyEmployeesMin ← jReq jInt? fs "companyEmployeesMin"
  pure ⟨name, globalRank, countryRank, categoryRank, companyName, companyYearFounded,
        companyEmployeesMin⟩

def parseApifyFieldsB? (fs : List (String × Json)) : Option ApifyFieldsB := do
  let companyEmployeesMax ← jOptInt? (jField fs "companyEmployeesMax")
  let totalVisits ← jReq jInt? fs "totalVisits"
  let avgVisitDuration ← jReq jStr? fs "avgVisitDuration"
  let pagesPerVisit ← jReq jRat? fs "pagesPerVisit"
  let bounceRate ← jReq jRat? fs "bounceRate"
  let trafficSources ← (jField fs "trafficSources").bind parseTrafficSources?
  pure ⟨companyEmployeesMax, totalVisits, avgVisitDuration, pagesPerVisit, bounceRate,
        trafficSources⟩

def parseApifyFieldsC? (fs : List (String × Json)) : Option ApifyFieldsC := do
  let topCountries ← jList? parseTopCountry? fs "topCountries"
  let topKeywords ← jList? parseTopKeyword? fs "topKeywords"
  let socialNetworkDistribution ← jList? parseSocialNetworkDistribution? fs "socialNetworkDistribution"
  let topSimilarityCompetitors ← jList? parseTopSimilarityCompetitor? fs "topSimilarityCompetitors"
  pure ⟨topCountries, topKeywords, socialNetworkDistribution, topSimilarityCompetitors⟩

def parseApifyFieldsD? (fs : List (String × Json)) : Option ApifyFieldsD := do
  let organicTraffic ← jReq jRat? fs "organicTraffic"
  let paidTraffic ← jReq jRat? fs "paidTraffic"
  let builtwith_result ← jOptBuiltWith? (jField fs "builtwith_result")
  pure ⟨organicTraffic, paidTraffic, builtwith_result⟩

/-- `ApifyResult(**fields)`: validate a dumped record from its field
dict (main.py line 207 and line 726); a record validates exactly when
every required field is present with the right shape. -/
def parseApifyFields? (fs : List (String × Json)) : Option ApifyResult := do
  let a ← parseApifyFieldsA? fs
  let b ← parseApifyFieldsB? fs
  let c ← parseApifyFieldsC? fs
  let d ← parseApifyFieldsD? fs
  pure ⟨a.name, a.globalRank, a.countryRank, a.categoryRank, a.companyName,
        a.companyYearFounded, a.companyEmployeesMin, b.companyEmployeesMax,
        b.totalVisits, b.avgVisitDuration, b.pagesPerVisit, b.bounceRate,
        b.trafficSources, c.topCountries, c.topKeywords, c.socialNetworkDistribution,
        c.topSimilarityCompetitors, d.organicTraffic, d.paidTraffic, d.builtwith_result⟩

/-- `ApifyResult(**result)` on a raw JSON value (the Apify dataset
transform loop, main.py lines 204-213). -/
def parseApifyResult? : Json → Option ApifyResult
  | .obj fs => parseApifyFields? fs
  | _ => none

/-- One item of the stored list read back in analyze_tech_stack
(main.py lines 722-730): `item_data.pop('builtwith_result', None)`
followed by `ApifyResult(**item_data)`; a non-dict item raises and is
skipped by the caller. -/
def parseStoredItem? : Json → Option ApifyResult
  | .obj fs => parseApifyFields? (popKey fs "builtwith_result")
  | _ => none

/-- What POST /api/analyze writes to the persistence sink:
`[item.model_dump() for item in results]` (main.py lines 599, 630). -/
def writeStored (rs : List ApifyResult) : List Json :=
  rs.map serializeApifyResult

/-- How POST /api/analyze-tech-stack reconstructs records from the
stored list, silently dropping items that fail validation
(main.py lines 721-730). -/
def readStored (items : List Json) : List ApifyResult :=
  items.filterMap parseStoredItem?

/-- `result.builtwith_result = None` (main.py lines 593-594, 624-625,
715-716): clear the technology profile field. -/
def clearBW (r : ApifyResult) : ApifyResult :=
  { r with builtwith_result := none }

/-! ### Mock SimilarWeb data (get_mock_data, main.py lines 222-339) -/

/-- The LinkedIn mock record (main.py lines 225-281). -/
def mockLinkedIn : ApifyResult where
  name := "LinkedIn"
  globalRank := 27
  countryRank := 15
  categoryRank := 1
  companyName := "LinkedIn Corporation"
  companyYearFounded := 2003
  companyEmployeesMin := 10000
  companyEmployeesMax := some 50000
  totalVisits := 2500000000
  avgVisitDuration := "8:45"
  pagesPerVisit := 4.2
  bounceRate := 0.35
  trafficSources :=
    ⟨0.45, 0.35, 0.10, 0.05, 0.03, 0.02, 0.00⟩
  topCountries :=
    [⟨"US", 0.42, 0.02⟩, ⟨"IN", 0.15, 0.05⟩, ⟨"GB", 0.08, -0.01⟩]
  topKeywords :=
    [⟨"linkedin", 50000000, 45000000, 2.50⟩,
     ⟨"linkedin login", 25000000, 20000000, 1.80⟩,
     ⟨"jobs", 15000000, 12000000, 3.20⟩]
  socialNetworkDistribution :=
    [⟨"Facebook", 0.35⟩, ⟨"Twitter", 0.25⟩, ⟨"Instagram", 0.20⟩]
  topSimilarityCompetitors :=
    [⟨"indeed.com", 1800000000, 0.85, some 2⟩,
     ⟨"glassdoor.com", 500000000, 0.75, some 5⟩]
  organicTraffic := 875000000.0
  paidTraffic := 50000000.0
  builtwith_result := some
    ⟨"linkedin.com",
     [⟨"React", "JavaScript Frameworks"⟩,
      ⟨"Node.js", "Web Servers"⟩,
      ⟨"Amazon CloudFront", "CDN"⟩,
      ⟨"Google Analytics", "Analytics"⟩,
      ⟨"Nginx", "Web Servers"⟩,
      ⟨"Amazon Web Services", "Cloud Computing"⟩,
      ⟨"Bootstrap", "CSS Frameworks"⟩,
      ⟨"jQuery", "JavaScript Libraries"⟩]⟩

/-- The GitHub mock record (main.py lines 282-338). -/
def mockGitHub : ApifyResult where
  name := "GitHub"
  globalRank := 64
  countryRank := 35
  categoryRank := 2
  companyName := "GitHub Inc."
  companyYearFounded := 2008
  companyEmployeesMin := 1000
  companyEmployeesMax := some 5000
  totalVisits := 1200000000
  avgVisitDuration := "12:30"
  pagesPerVisit := 6.8
  bounceRate := 0.28
  trafficSources :=
    ⟨0.55, 0.30, 0.12, 0.02, 0.01, 0.00, 0.00⟩
  topCountries :=
    [⟨"US", 0.38, 0.01⟩, ⟨"CN", 0.12, 0.03⟩, ⟨"IN", 0.11, 0.04⟩]
  topKeywords :=
    [⟨"github", 30000000, 25000000, 1.20⟩,
     ⟨"git", 20000000, 15000000, 0.80⟩,
     ⟨"open source", 8000000, 6000000, 1.50⟩]
  socialNetworkDistribution :=
    [⟨"Twitter", 0.45⟩, ⟨"Reddit", 0.30⟩, ⟨"LinkedIn", 0.15⟩]
  topSimilarityCompetitors :=
    [⟨"gitlab.com", 150000000, 0.90, some 3⟩,
     ⟨"stackoverflow.com", 800000000, 0.70, some 1⟩]
  organicTraffic := 360000000.0
  paidTraffic := 0.0
  builtwith_result := some
    ⟨"github.com",
     [⟨"Ruby on Rails", "Web Frameworks"⟩,
      ⟨"MySQL", "Databases"⟩,
      ⟨"Redis", "Caching"⟩,
      ⟨"Fastly", "CDN"⟩,
      ⟨"GitHub Analytics", "Analytics"⟩,
      ⟨"Amazon Web Services", "Cloud Computing"⟩,
      ⟨"Elasticsearch", "Search Engines"⟩,
      ⟨"JavaScript", "Programming Languages"⟩]⟩

/-- `get_mock_data()` (main.py lines 222-339): the two mock records,
LinkedIn then GitHub. -/
def get_mock_data : List ApifyResult :=
  [mockLinkedIn, mockGitHub]

/-! ### BuiltWith mock table (_get_mock_builtwith_data, main.py 493-557) -/

/-- The static `mock_data` dict keyed by domain (main.py lines 495-546). -/
def mock_builtwith_table : List (String × List Technology) :=
  [("linkedin.com",
    [⟨"React", "JavaScript Frameworks"⟩,
     ⟨"Node.js", "Web Servers"⟩,
     ⟨"Amazon CloudFront", "CDN"⟩,
     ⟨"Google Analytics", "Analytics"⟩,
     ⟨"Nginx", "Web Servers"⟩,
     ⟨"Amazon Web Services", "Cloud Computing"⟩,
     ⟨"Bootstrap", "CSS Frameworks"⟩,
     ⟨"jQuery", "JavaScript Libraries"⟩]),
   ("github.com",
    [⟨"Ruby on Rails", "Web Frameworks"⟩,
     ⟨"MySQL", "Databases"⟩,
     ⟨"Redis", "Caching"⟩,
     ⟨"Fastly", "CDN"⟩,
     ⟨"GitHub Analytics", "Analytics"⟩,
     ⟨"Amazon Web Services", "Cloud Computing"⟩,
     ⟨"Elasticsearch", "Search Engines"⟩,
     ⟨"JavaScript", "Programming Languages"⟩]),
   ("medium.com",
    [⟨"Node.js", "Web Servers"⟩,
     ⟨"React", "JavaScript Frameworks"⟩,
     ⟨"Amazon CloudFront", "CDN"⟩,
     ⟨"Google Analytics", "Analytics"⟩,
     ⟨"Amazon Web Services", "Cloud Computing"⟩,
     ⟨"GraphQL", "APIs"⟩,
     ⟨"PostgreSQL", "Databases"⟩,
     ⟨"TypeScript", "Programming Languages"⟩]),
   ("facebook.com",
    [⟨"React", "JavaScript Frameworks"⟩,
     ⟨"PHP", "Programming Languages"⟩,
     ⟨"MySQL", "Databases"⟩,
     ⟨"Memcached", "Caching"⟩,
     ⟨"Facebook CDN", "CDN"⟩,
     ⟨"Facebook Analytics", "Analytics"⟩,
     ⟨"HipHop", "Web Frameworks"⟩,
     ⟨"Cassandra", "Databases"⟩]),
   ("google.com",
    [⟨"Go", "Programming Languages"⟩,
     ⟨"JavaScript", "Programming Languages"⟩,
     ⟨"Google Cloud CDN", "CDN"⟩,
     ⟨"Google Analytics", "Analytics"⟩,
     ⟨"Bigtable", "Databases"⟩,
     ⟨"Google Cloud Platform", "Cloud Computing"⟩,
     ⟨"V8", "JavaScript Engines"⟩,
     ⟨"Protocol Buffers", "APIs"⟩])]

/-- The generic default technology set for domains not in the table
(main.py lines 549-555). -/
def default_mock_technologies : List Technology :=
  [⟨"JavaScript", "Programming Languages"⟩,
   ⟨"HTML5", "Markup Languages"⟩,
   ⟨"CSS3", "Stylesheets"⟩,
   ⟨"Google Analytics", "Analytics"⟩,
   ⟨"Cloudflare", "CDN"⟩]

/-- `BuiltWithClient._get_mock_builtwith_data` (main.py lines 493-557):
`mock_data.get(domain, default)` wrapped into a BuiltWithResult. -/
def get_mock_builtwith_data (domain : String) : BuiltWithResult :=
  ⟨domain, (lookupStr mock_builtwith_table domain).getD default_mock_technologies⟩

/-! ### BuiltWith response parsing
(_parse_builtwith_response, main.py lines 405-491)

The Python parser walks a loosely shaped JSON value inside a
`try/except` that swallows every exception; `technologies` is a list
mutated in place, so when an exception aborts the walk the entries
collected so far survive into the final emptiness check.  Each helper
below therefore returns the collected entries together with an `ok`
flag that is `false` when the Python code would have raised
(TypeError on a bad container, KeyError on a bad subscript, pydantic
ValidationError on a non-string name or tag); an abort stops the walk
but keeps the partial list. -/

/-- Python truthiness of a JSON value. -/
def jTruthy : Json → Bool
  | .null => false
  | .bool b => b
  | .int n => n ≠ 0
  | .float q => q ≠ 0
  | .str s => s ≠ ""
  | .arr l => !l.isEmpty
  | .obj fs => !fs.isEmpty

/-- What Python `for x in j` iterates over: lists yield their elements,
strings their one-character substrings, dicts their keys; anything else
raises TypeError (`none`). -/
def iterList : Json → Option (List Json)
  | .arr l => some l
  | .str s => some (s.data.map fun c => Json.str ⟨[c]⟩)
  | .obj fs => some (fs.map fun kv => Json.str kv.1)
  | _ => none

/-- Python `k in j`: key test on dicts, substring test on strings,
membership on lists (a string can only equal a string element);
TypeError (`none`) otherwise. -/
def jHasKey (j : Json) (k : String) : Option Bool :=
  match j with
  | .obj fs => some (fs.any fun kv => kv.1 = k)
  | .str s => some (strContains s k)
  | .arr l => some (l.any fun e => match e with | .str s => s = k | _ => false)
  | _ => none

/-- Python `j[k]` with a string key: dict access (KeyError when the key
is absent is an exception, `none`); everything else raises. -/
def jIndexStr (j : Json) (k : String) : Option Json :=
  match j with
  | .obj fs => jField fs k
  | _ => none

/-- Python `j[0]`: list and string indexing; dicts raise KeyError for
the int key, everything else TypeError. -/
def jIndexZero : Json → Option Json
  | .arr (x :: _) => some x
  | .str s => match s.data with
    | c :: _ => some (.str ⟨[c]⟩)
    | [] => none
  | _ => none

/-- Python `len(j)`: length of a list, string or dict; TypeError
(`none`) otherwise. -/
def jLen : Json → Option Nat
  | .arr l => some l.length
  | .str s => some s.data.length
  | .obj fs => some fs.length
  | _ => none

/-- The shared per-technology-entry logic (main.py lines 436-444 and
453-464): skip a non-dict entry, read `Name` with default `"Unknown"`,
append `Technology(name, tag)` when the name is truthy and not
`"Unknown"`.  A truthy non-string name, or a non-string tag at an
append, is a pydantic ValidationError, which aborts with the partial
list. -/
def techsFromItems (catName : Json) : List Json → List Technology × Bool
  | [] => ([], true)
  | t :: rest =>
    match t with
    | .obj fs =>
      match (jField fs "Name").getD (.str "Unknown") with
      | .str s =>
        if s ≠ "" ∧ s ≠ "Unknown" then
          match catName with
          | .str tag =>
            let (ts, ok) := techsFromItems catName rest
            (⟨s, tag⟩ :: ts, ok)
          | _ => ([], false)
        else techsFromItems catName rest
      | v => if jTruthy v then ([], false) else techsFromItems catName rest
    | _ => techsFromItems catName rest

/-- The `Categories` branch (main.py lines 447-464): for each dict
category, iterate `category.get("Technologies", [])` with the shared
per-entry logic. -/
def techsFromCategories (catName : Json) : List Json → List Technology × Bool
  | [] => ([], true)
  | c :: rest =>
    match c with
    | .obj fs =>
      match iterList ((jField fs "Technologies").getD (.arr [])) with
      | none => ([], false)
      | some items =>
        let (ts, ok) := techsFromItems catName items
        if ok then
          let (ts2, ok2) := techsFromCategories catName rest
          (ts ++ ts2, ok2)
        else (ts, false)
    | _ => techsFromCategories catName rest

/-- One `tech_category` of a path (main.py lines 426-464): non-dicts
are skipped; `Name` defaults to `"Other"`; the direct `Technologies`
list and the `Categories` list are both walked. -/
def techsFromTechCategory (tc : Json) : List Technology × Bool :=
  match tc with
  | .obj fs =>
    let catName := (jField fs "Name").getD (.str "Other")
    let (ts1, ok1) :=
      if fs.any (fun kv => kv.1 = "Technologies") then
        match iterList ((jField fs "Technologies").getD .null) with
        | none => ([], false)
        | some items => techsFromItems catName items
      else ([], true)
    if ok1 then
      let (ts2, ok2) :=
        if fs.any (fun kv => kv.1 = "Categories") then
          match iterList ((jField fs "Categories").getD .null) with
          | none => ([], false)
          | some cats => techsFromCategories catName cats
        else ([], true)
      (ts1 ++ ts2, ok2)
    else (ts1, false)
  | _ => ([], true)

/-- All tech categories of one path in order. -/
def techsFromTechCategories : List Json → List Technology × Bool
  | [] => ([], true)
  | tc :: rest =>
    let (ts, ok) := techsFromTechCategory tc
    if ok then
      let (ts2, ok2) := techsFromTechCategories rest
      (ts ++ ts2, ok2)
    else (ts, false)

/-- The `Paths` loop (main.py lines 421-464): for each path carrying a
`Technologies` entry, walk its tech categories. -/
def techsFromPaths : List Json → List Technology × Bool
  | [] => ([], true)
  | p :: rest =>
    match jHasKey p "Technologies" with
    | none => ([], false)
    | some false => techsFromPaths rest
    | some true =>
      match jIndexStr p "Technologies" with
      | none => ([], false)
      | some techs =>
        match iterList techs with
        | none => ([], false)
        | some tcs =>
          let (ts, ok) := techsFromTechCategories tcs
          if ok then
            let (ts2, ok2) := techsFromPaths rest
            (ts ++ ts2, ok2)
          else (ts, false)

/-- The `Result`/`Paths` block (main.py lines 417-464). -/
def pathsBlock (result : Json) : List Technology × Bool :=
  match jHasKey result "Result" with
  | none => ([], false)
  | some false => ([], true)
  | some true =>
    match jIndexStr result "Result" with
    | none => ([], false)
    | some inner =>
      match jHasKey inner "Paths" with
      | none => ([], false)
      | some false => ([], true)
      | some true =>
        match jIndexStr inner "Paths" with
        | none => ([], false)
        | some paths =>
          match iterList paths with
          | none => ([], false)
          | some ps => techsFromPaths ps

/-- One entry of the alternative flat `Technologies` list
(main.py lines 469-478): `Name` falling back to `name` then
`"Unknown"`, `Category` falling back to `tag` then `"Other"`. -/
def altTechsFromItems : List Json → List Technology × Bool
  | [] => ([], true)
  | t :: rest =>
    match t with
    | .obj fs =>
      let nameJ := (jField fs "Name").getD ((jField fs "name").getD (.str "Unknown"))
      let catJ := (jField fs "Category").getD ((jField fs "tag").getD (.str "Other"))
      match nameJ with
      | .str s =>
        if s ≠ "" ∧ s ≠ "Unknown" then
          match catJ with
          | .str tag =>
            let (ts, ok) := altTechsFromItems rest
            (⟨s, tag⟩ :: ts, ok)
          | _ => ([], false)
        else altTechsFromItems rest
      | v => if jTruthy v then ([], false) else altTechsFromItems rest
    | _ => altTechsFromItems rest

/-- The alternative structure block (main.py lines 467-478), reached
only when the Paths walk produced nothing. -/
def altBlock (result : Json) : List Technology × Bool :=
  match jHasKey result "Technologies" with
  | none => ([], false)
  | some false => ([], true)
  | some true =>
    match jIndexStr result "Technologies" with
    | none => ([], false)
    | some v =>
      match iterList v with
      | none => ([], false)
      | some items => altTechsFromItems items

/-- The whole extraction of `_parse_builtwith_response`
(main.py lines 407-478): the technologies accumulated when the final
emptiness check on line 487 runs, plus whether the walk finished
without an exception. -/
def parse_techs (data : Json) : List Technology × Bool :=
  match jHasKey data "Results" with
  | none => ([], false)
  | some false => ([], true)
  | some true =>
    match jIndexStr data "Results" with
    | none => ([], false)
    | some results =>
      match jLen results with
      | none => ([], false)
      | some 0 => ([], true)
      | some (_ + 1) =>
        match jIndexZero results with
        | none => ([], false)
        | some result =>
          let (ts, ok) := pathsBlock result
          if ok then
            if ts = [] then altBlock result
            else (ts, true)
          else (ts, false)

/-- `BuiltWithClient._parse_builtwith_response` (main.py lines
405-491): whatever the walk collected, an empty collection falls back
to the mock table. -/
def parse_builtwith_response (domain : String) (data : Json) : BuiltWithResult :=
  if (parse_techs data).1 = [] then get_mock_builtwith_data domain
  else ⟨domain, (parse_techs data).1⟩

/-! ### BuiltWithClient.analyze_domain (main.py lines 346-403) -/

/-- Outcome of the single BuiltWith HTTP GET, when credentials allow
one: an httpx timeout, any other exception (including an unparsable
JSON body), or a response with a status code and JSON body. -/
inductive BuiltWithApiOutcome where
  | timeout
  | otherError
  | response (statusCode : Nat) (body : Json)

/-- `not self.api_key or self.api_key == "your-builtwith-api-key-here"`
(main.py line 355): a missing, empty (falsy) or placeholder key. -/
def credentialsMissing : Option String → Bool
  | none => true
  | some s => s = "" || s = "your-builtwith-api-key-here"

/-- `BuiltWithClient.analyze_domain` (main.py lines 346-403): clean the
domain, answer from the mock table when credentials are missing, and
otherwise call the API, falling back to the mock table on timeout, any
exception, or a non-200 status. -/
def analyze_domain (api_key : Option String) (domain : String)
    (outcome : BuiltWithApiOutcome) : BuiltWithResult :=
  let cleaned := clean_domain domain
  if credentialsMissing api_key then get_mock_builtwith_data cleaned
  else
    match outcome with
    | .timeout => get_mock_builtwith_data cleaned
    | .otherError => get_mock_builtwith_data cleaned
    | .response statusCode body =>
      if statusCode ≠ 200 then get_mock_builtwith_data cleaned
      else parse_builtwith_response cleaned body

/-! ### ApifyClient.analyze_domains (main.py lines 129-220)

The network interaction of one run is abstracted into an
`ApifyRunEnv`: the status code and text of the run-creation POST, the
job status string observed at each successive poll (1-indexed), and
the status code, text and items of the dataset fetch.  Network-level
`httpx.TimeoutException`s on individual calls (which the code maps to
a 504 "Request timeout") are outside this model: every HTTP call is
assumed to return a response. -/

/-- The abstracted external behaviour of one Apify actor run. -/
structure ApifyRunEnv where
  createStatusCode : Nat
  createText : String
  statuses : Nat → String
  datasetStatusCode : Nat
  datasetText : String
  datasetItems : List Json

/-- `max_polls = 60` (main.py line 159). -/
def max_polls : Nat := 60

/-- `await asyncio.sleep(5)` (main.py line 162): the fixed delay, in
seconds, before each status check. -/
def poll_delay_seconds : Nat := 5

/-- Membership of the in-progress status set
`["RUNNING", "READY"]` (main.py line 174). -/
def inProgress (s : String) : Bool :=
  s = "RUNNING" || s = "READY"

/-- The polling loop (main.py lines 160-175), fuel-structured: calling
`pollAux statuses fuel poll_count last` with `fuel + poll_count =
max_polls` runs `while poll_count < max_polls`, incrementing the
counter, observing `statuses poll_count`, and breaking on a status
outside the in-progress set.  Returns the final `poll_count` and the
last observed status (the loop variable `run`). -/
def pollAux (statuses : Nat → String) : Nat → Nat → Option String → Nat × Option String
  | 0, poll_count, last => (poll_count, last)
  | fuel + 1, poll_count, last =>
    let c := poll_count + 1
    let s := statuses c
    if inProgress s then pollAux statuses fuel c (some s)
    else (c, some s)

/-- The poll loop of one run: final poll count and last status. -/
def poll_run (statuses : Nat → String) : Nat × Option String :=
  pollAux statuses max_polls 0 none

/-- How many status checks the loop performs. -/
def polls_performed (statuses : Nat → String) : Nat :=
  (poll_run statuses).1

/-- The body of the `try` block of `ApifyClient.analyze_domains`
(main.py lines 132-215): create the run, poll, check for timeout and
non-success, fetch the dataset, and validate each record, silently
skipping records that fail validation.  Errors are the
`HTTPException(status_code, detail)` raised inside the block. -/
def analyze_domains_raw (env : ApifyRunEnv) : Except (Nat × String) (List ApifyResult) :=
  if env.createStatusCode ≠ 201 then
    .error (500, "Failed to start actor run: " ++ env.createText)
  else
    let (poll_count, last) := poll_run env.statuses
    if poll_count ≥ max_polls then .error (504, "Actor run timed out")
    else
      match last with
      | none => .error (500, "name run is not defined")
      | some status =>
        if status ≠ "SUCCEEDED" then
          .error (500, "Actor run failed with status: " ++ status)
        else if env.datasetStatusCode ≠ 200 then
          .error (500, "Failed to fetch results: " ++ env.datasetText)
        else .ok (env.datasetItems.filterMap parseApifyResult?)

/-- `ApifyClient.analyze_domains` (main.py lines 129-220).  The
`except Exception as e` clause on line 219 catches every
`HTTPException` raised inside the `try` block (FastAPI HTTPException
subclasses Exception) and re-raises it as
`HTTPException(500, str(e))`, where `str` of an HTTPException is
`"{status_code}: {detail}"` — so even the 504 poll timeout leaves this
function as a 500 whose detail merely mentions the 504.  (The `none`
branch of the poll match above is unreachable with `max_polls = 60`:
the first loop iteration always observes a status.) -/
def analyze_domains (env : ApifyRunEnv) : Except (Nat × String) (List ApifyResult) :=
  match analyze_domains_raw env with
  | .ok r => .ok r
  | .error (code, detail) => .error (500, Nat.repr code ++ ": " ++ detail)

/-! ### The HTTP handlers (main.py lines 571-823)

Each handler is a function of its request plus the abstracted external
world, returning the list of external `Effect`s it performs together
with either an `HTTPException (status, detail)` or an
`AnalysisResponse`. -/

/-- External side effects a handler can perform. -/
inductive Effect where
  | apifyCall (websites : List String)
  | dbRead (userId : String)
  | dbWrite (userId : String) (payload : List Json)
  | builtwithCall (domain : String)

/-- Python falsiness of an optional environment string (`os.getenv`
returns None when unset; the empty string is also falsy). -/
def strOptFalsy : Option String → Bool
  | none => true
  | some s => s = ""

/-- The step-1 note (main.py lines 614, 645), with the two apostrophes
written via their code point. -/
def step1_note : String :=
  let q : String := ⟨[Char.ofNat 39]⟩
  "Step 1 complete: SimilarWeb analysis ready. Click " ++ q ++
    "Analyze Tech Stack" ++ q ++ " to continue."

/-- The empty-websites 400 detail (main.py lines 575, 683). -/
def empty_websites_detail : String :=
  "Please provide an array of websites to analyze"

/-- `analyze_websites`, the POST /api/analyze handler (main.py lines
571-677).  `supabaseAvailable` abstracts whether the module-level
Supabase client initialised; a deeper Supabase failure only logs, so
the write effect records the attempt. -/
def analyze_websites (websites : List String) (userId : String)
    (apify_token : Option String) (env : ApifyRunEnv) (supabaseAvailable : Bool) :
    List Effect × Except (Nat × String) AnalysisResponse :=
  if websites.isEmpty then ([], .error (400, empty_websites_detail))
  else if strOptFalsy apify_token then
    let mock := get_mock_data.map clearBW
    let eff := if supabaseAvailable then [Effect.dbWrite userId (writeStored mock)] else []
    (eff, .ok { success := true, data := mock, count := mock.length, note := some step1_note })
  else
    match analyze_domains env with
    | .ok rawResults =>
      let results := rawResults.map clearBW
      let eff := if supabaseAvailable then [Effect.dbWrite userId (writeStored results)] else []
      (Effect.apifyCall websites :: eff,
       .ok { success := true, data := results, count := results.length,
             note := some step1_note })
    | .error (code, detail) =>
      let mock := get_mock_data.map clearBW
      let eff := if supabaseAvailable then [Effect.dbWrite userId (writeStored mock)] else []
      (Effect.apifyCall websites :: eff,
       .ok { success := true, data := mock, count := mock.length,
             note := some ("Step 1 complete (with fallback): SimilarWeb analysis ready. API Error: "
                           ++ Nat.repr code ++ ": " ++ detail) })

/-- The per-record website URL of the enrichment loop (main.py lines
738-742): the i-th requested website, or a domain constructed from the
record name. -/
def website_url (websites : List String) (i : Nat) (r : ApifyResult) : String :=
  match websites.get? i with
  | some u => u
  | none => pyReplace (lowerString r.name) " " "" ++ ".com"

/-- Total technologies found (main.py lines 783-786). -/
def totalTechnologies (rs : List ApifyResult) : Nat :=
  (rs.map fun r =>
    match r.builtwith_result with
    | some bw => bw.technologies.length
    | none => 0).sum

/-- The step-2 success note (main.py line 797). -/
def step2_note (total count : Nat) : String :=
  "Step 2 complete: BuiltWith analysis added. Found " ++ Nat.repr total ++
    " technologies across " ++ Nat.repr count ++ " websites."

/-- `analyze_tech_stack`, the POST /api/analyze-tech-stack handler
(main.py lines 679-823).  `stored` is the decoded
`similarweb_result` list Supabase returns for the user (None when the
row or column is empty or retrieval/decoding fails, all of which the
inner try absorbs); `outcomes` gives the BuiltWith API behaviour per
looked-up URL; `unexpectedError`, when set, routes to the outer
`except` fallback (its string is `str(e)`).  The per-domain
`analyze_domain` calls are total here, so the per-domain
`except` on lines 761-764 is dead in the model. -/
def analyze_tech_stack (websites : List String) (userId : String)
    (builtwith_key : Option String) (stored : Option (List Json))
    (outcomes : String → BuiltWithApiOutcome) (supabaseAvailable : Bool)
    (unexpectedError : Option String) :
    List Effect × Except (Nat × String) AnalysisResponse :=
  if websites.isEmpty then ([], .error (400, empty_websites_detail))
  else
    match unexpectedError with
    | some e =>
      let mock := get_mock_data
      let eff := if supabaseAvailable then [Effect.dbWrite userId (writeStored mock)] else []
      (eff, .ok { success := true, data := mock, count := mock.length,
                  note := some ("Step 2 complete (with fallback): BuiltWith analysis added. Error: " ++ e) })
    | none =>
      let readEff := if supabaseAvailable then [Effect.dbRead userId] else []
      let existing_data : Option (List Json) := if supabaseAvailable then stored else none
      let results :=
        match existing_data with
        | some items => if items.isEmpty then get_mock_data.map clearBW else readStored items
        | none => get_mock_data.map clearBW
      let enriched := results.enum.map fun (i, r) =>
        let url := website_url websites i r
        { r with builtwith_result := some (analyze_domain builtwith_key url (outcomes url)) }
      let callEff :=
        if credentialsMissing builtwith_key then []
        else results.enum.map fun (i, r) => Effect.builtwithCall (website_url websites i r)
      let writeEff := if supabaseAvailable then [Effect.dbWrite userId (writeStored enriched)] else []
      (readEff ++ callEff ++ writeEff,
       .ok { success := true, data := enriched, count := enriched.length,
             note := some (step2_note (totalTechnologies enriched) enriched.length) })

/-! ### Sample environments used by concrete theorems -/

/-- A run whose first poll already reports success and whose dataset is
empty; also used where the handler never consults the environment. -/
def trivialEnv : ApifyRunEnv where
  createStatusCode := 201
  createText := ""
  statuses := fun _ => "SUCCEEDED"
  datasetStatusCode := 200
  datasetText := ""
  datasetItems := []

/-- A run that is still RUNNING at every poll. -/
def timeoutEnv : ApifyRunEnv where
  createStatusCode := 201
  createText := ""
  statuses := fun _ => "RUNNING"
  datasetStatusCode := 200
  datasetText := ""
  datasetItems := []

/-! ### Helper lemmas: serialization round-trips -/

theorem parseTechnology?_serialize (t : Technology) :
    parseTechnology? (serializeTechnology t) = some t := rfl

theorem parseTopCountry?_serialize (t : TopCountry) :
    parseTopCountry? (serializeTopCountry t) = some t := rfl

theorem parseTrafficSources?_serialize (t : TrafficSources) :
    parseTrafficSources? (serializeTrafficSources t) = some t := rfl

theorem parseTopKeyword?_serialize (t : TopKeyword) :
    parseTopKeyword? (serializeTopKeyword t) = some t := rfl

theorem parseSocialNetworkDistribution?_serialize (t : SocialNetworkDistribution) :
    parseSocialNetworkDistribution? (serializeSocialNetworkDistribution t) = some t := rfl

theorem parseTopSimilarityCompetitor?_serialize (t : TopSimilarityCompetitor) :
    parseTopSimilarityCompetitor? (serializeTopSimilarityCompetitor t) = some t := by
  obtain ⟨d, v, a, c⟩ := t
  cases c <;> rfl

theorem optMapM_map {α : Type} (g : Json → Option α) (f : α → Json)
    (h : ∀ a, g (f a) = some a) (l : List α) :
    optMapM g (l.map f) = some l := by
  induction l with
  | nil => rfl
  | cons x xs ih => simp [optMapM, h, ih]

theorem parseBuiltWithResult?_serialize (t : BuiltWithResult) :
    parseBuiltWithResult? (serializeBuiltWithResult t) = some t := by
  obtain ⟨d, techs⟩ := t
  simp [serializeBuiltWithResult, parseBuiltWithResult?, jReq, jField, lookupStr, jStr?,
    jList?, optMapM_map parseTechnology? serializeTechnology parseTechnology?_serialize]

/-- Popping `builtwith_result` from a dumped record and re-validating
recovers the record with the technology profile cleared. -/
theorem parseStoredItem?_serialize (r : ApifyResult) :
    parseStoredItem? (serializeApifyResult r) = some (clearBW r) := by
  obtain ⟨n, gr, cr, car, cn, cyf, cmin, cmax, tv, avd, ppv, br, ts, tc, tk, snd, tsc, ot, pt, bw⟩ := r
  cases cmax <;> cases bw <;>
    simp [serializeApifyResult, parseStoredItem?, popKey, parseApifyFields?,
      parseApifyFieldsA?, parseApifyFieldsB?, parseApifyFieldsC?, parseApifyFieldsD?,
      jReq, jField, lookupStr, jStr?, jInt?, jRat?, jOptInt?, jOptBuiltWith?, jList?, clearBW,
      parseTrafficSources?_serialize,
      optMapM_map _ _ parseTopCountry?_serialize,
      optMapM_map _ _ parseTopKeyword?_serialize,
      optMapM_map _ _ parseSocialNetworkDistribution?_serialize,
      optMapM_map _ _ parseTopSimilarityCompetitor?_serialize]

theorem readStored_writeStored (rs : List ApifyResult) :
    readStored (writeStored rs) = rs.map clearBW := by
  induction rs with
  | nil => rfl
  | cons r rest ih =>
    simp [readStored, writeStored, List.filterMap, parseStoredItem?_serialize] at ih ⊢
    simpa [readStored, writeStored] using ih

/-! ### Helper lemmas: the polling loop -/

theorem pollAux_ge (statuses : Nat → String) :
    ∀ fuel count last, count ≤ (pollAux statuses fuel count last).1 := by
  intro fuel
  induction fuel with
  | zero => intro count last; simp [pollAux]
  | succ f ih =>
    intro count last
    simp only [pollAux]
    split
    · exact le_trans (Nat.le_succ count) (ih (count + 1) _)
    · exact Nat.le_succ count

/-- If polls `count+1 .. count+d` are in progress and poll `count+1+d`
is not, the loop returns exactly after poll `count+1+d`. -/
theorem pollAux_stops (statuses : Nat → String) :
    ∀ d fuel count last, d < fuel →
    (∀ j, count < j → j < count + 1 + d → inProgress (statuses j) = true) →
    inProgress (statuses (count + 1 + d)) = false →
    pollAux statuses fuel count last = (count + 1 + d, some (statuses (count + 1 + d))) := by
  intro d
  induction d with
  | zero =>
    intro fuel count last hfuel _ hstop
    match fuel, hfuel with
    | f + 1, _ =>
      simp only [pollAux]
      rw [show count + 1 + 0 = count + 1 from rfl] at hstop
      simp [hstop]
  | succ d ih =>
    intro fuel count last hfuel hrun hstop
    match fuel, hfuel with
    | f + 1, hfuel =>
      have h1 : inProgress (statuses (count + 1)) = true := by
        apply hrun <;> omega
      simp only [pollAux, h1, if_pos]
      have := ih f (count + 1) (some (statuses (count + 1))) (by omega)
        (fun j hj hj2 => hrun j (by omega) (by omega)) (by
          rw [show count + 1 + 1 + d = count + 1 + (d + 1) from by omega]
          exact hstop)
      rw [this, show count + 1 + 1 + d = count + 1 + (d + 1) from by omega]

/-- While the first `k` observed statuses are in progress and fuel
remains, the loop keeps polling: at least `count + k + 1` polls. -/
theorem pollAux_continues (statuses : Nat → String) :
    ∀ k fuel count last, k < fuel →
    (∀ j, count < j → j ≤ count + k → inProgress (statuses j) = true) →
    count + k + 1 ≤ (pollAux statuses fuel count last).1 := by
  intro k
  induction k with
  | zero =>
    intro fuel count last hfuel _
    match fuel, hfuel with
    | f + 1, _ =>
      simp only [pollAux]
      split
      · exact le_trans (by omega) (pollAux_ge statuses f (count + 1) _)
      · simp
  | succ k ih =>
    intro fuel count last hfuel hrun
    match fuel, hfuel with
    | f + 1, hfuel =>
      have h1 : inProgress (statuses (count + 1)) = true := by
        apply hrun <;> omega
      simp only [pollAux, h1, if_pos]
      have := ih f (count + 1) (some (statuses (count + 1))) (by omega)
        (fun j hj hj2 => hrun j (by omega) (by omega))
      omega

theorem polls_performed_stops (statuses : Nat → String) (k : Nat)
    (h1 : 1 ≤ k) (h2 : k ≤ max_polls)
    (hrun : ∀ j, 1 ≤ j → j < k → inProgress (statuses j) = true)
    (hstop : inProgress (statuses k) = false) :
    polls_performed statuses = k := by
  have hk : 0 + 1 + (k - 1) = k := by omega
  have := pollAux_stops statuses (k - 1) max_polls 0 none
    (by have h2c := h2; simp only [max_polls] at h2c ⊢; omega)
    (fun j hj hj2 => hrun j (by omega) (by omega))
    (by rw [hk]; exact hstop)
  rw [polls_performed, poll_run, this, hk]

theorem polls_performed_continues (statuses : Nat → String) (k : Nat)
    (h2 : k < max_polls)
    (hrun : ∀ j, 1 ≤ j → j ≤ k → inProgress (statuses j) = true) :
    k < polls_performed statuses := by
  have := pollAux_continues statuses k max_polls 0 none h2
    (fun j hj hj2 => hrun j (by omega) (by omega))
  rw [polls_performed, poll_run]
  omega

/-! ### Helper lemmas: the BuiltWith mock table and enricher -/

theorem lookupStr_mem {α : Type} :
    ∀ (l : List (String × α)) (k : String) (v : α),
      lookupStr l k = some v → (k, v) ∈ l := by
  intro l
  induction l with
  | nil => intro k v h; simp [lookupStr] at h
  | cons kv rest ih =>
    intro k v h
    obtain ⟨k0, v0⟩ := kv
    simp only [lookupStr] at h
    split at h
    · cases h
      simp_all
    · exact List.mem_cons_of_mem _ (ih k v h)

theorem lookupStr_eq_none {α : Type} :
    ∀ (l : List (String × α)) (k : String), k ∉ l.map Prod.fst → lookupStr l k = none := by
  intro l
  induction l with
  | nil => intro k _; rfl
  | cons kv rest ih =>
    intro k h
    simp only [List.map, List.mem_cons] at h
    push_neg at h
    simp only [lookupStr]
    rw [if_neg h.1]
    exact ih k h.2

theorem mock_builtwith_nonempty (d : String) :
    (get_mock_builtwith_data d).technologies ≠ [] := by
  unfold get_mock_builtwith_data
  cases h : lookupStr mock_builtwith_table d with
  | none => simp [default_mock_technologies]
  | some ts =>
    have hm := lookupStr_mem _ _ _ h
    simp only [mock_builtwith_table, List.mem_cons, List.mem_singleton] at hm
    rcases hm with h1 | h1 | h1 | h1 | h1 | h1
    · rw [Prod.mk.injEq] at h1; obtain ⟨-, rfl⟩ := h1; simp
    · rw [Prod.mk.injEq] at h1; obtain ⟨-, rfl⟩ := h1; simp
    · rw [Prod.mk.injEq] at h1; obtain ⟨-, rfl⟩ := h1; simp
    · rw [Prod.mk.injEq] at h1; obtain ⟨-, rfl⟩ := h1; simp
    · rw [Prod.mk.injEq] at h1; obtain ⟨-, rfl⟩ := h1; simp
    · simp at h1

theorem get_mock_builtwith_domain (d : String) :
    (get_mock_builtwith_data d).domain = d := rfl

theorem parse_builtwith_response_nonempty (d : String) (b : Json) :
    (parse_builtwith_response d b).technologies ≠ [] := by
  unfold parse_builtwith_response
  split
  · exact mock_builtwith_nonempty _
  · simpa using by assumption

theorem parse_builtwith_response_domain (d : String) (b : Json) :
    (parse_builtwith_response d b).domain = d := by
  unfold parse_builtwith_response
  split <;> rfl

/-! ### Claim theorems -/

/-- C1 (counterexample): for the request
`{websites: ["https://www.github.com"], userId: "u1"}` with no Apify
token, POST /api/analyze returns success with the full two-record mock
set — so `count` is 2, not 1 as claimed — and its note (the step-1
text) does not mention mock data. -/
theorem C1_counterexample :
    (analyze_websites ["https://www.github.com"] "u1" none trivialEnv true).2 =
      Except.ok { success := true, data := get_mock_data.map clearBW,
                  count := 2, note := some step1_note } ∧
    (2 : Nat) ≠ 1 ∧
    strContains step1_note "mock" = false :=
  ⟨rfl, by decide, rfl⟩

/-- C1 (amended): for that request with no job-service credential the
response has success=true, count=2 (the mock set holds the LinkedIn
and GitHub records), a completion note that does not mention mock
data, and the GitHub mock record has globalRank 64. -/
theorem C1_mock_response_amended :
    (analyze_websites ["https://www.github.com"] "u1" none trivialEnv true).2 =
      Except.ok { success := true, data := get_mock_data.map clearBW,
                  count := 2, note := some step1_note } ∧
    strContains step1_note "mock" = false ∧
    (get_mock_data.map clearBW).map ApifyResult.name = ["LinkedIn", "GitHub"] ∧
    ((get_mock_data.map clearBW).get? 1).map ApifyResult.globalRank = some 64 :=
  ⟨rfl, rfl, rfl, rfl⟩

/-- C2 (code evaluated at the failing input): the poll bound is 60
polls at a 5 second delay, and a run still RUNNING at every poll does
produce the timeout `HTTPException(504, "Actor run timed out")` inside
the try block — but the blanket `except Exception` on main.py line 219
re-wraps it, so `analyze_domains` actually raises
`HTTPException(500, "504: Actor run timed out")`, not a 504.  A run
that succeeds at the first poll is not reported as a timeout. -/
theorem C2_timeout_rewrapped :
    max_polls = 60 ∧ poll_delay_seconds = 5 ∧
    analyze_domains_raw timeoutEnv = .error (504, "Actor run timed out") ∧
    analyze_domains timeoutEnv = .error (500, "504: Actor run timed out") ∧
    analyze_domains { timeoutEnv with statuses := fun _ => "SUCCEEDED" } = .ok [] :=
  ⟨rfl, rfl, rfl, rfl, rfl⟩

/-- C3: a result list written by POST /api/analyze (serialized with
`model_dump` into the user row) and re-read by POST
/api/analyze-tech-stack reconstructs the same per-domain records with
the technology profile field cleared; and the write the handler
performs is exactly the serialization of the data it returns. -/
theorem C3_store_roundtrip :
    (∀ rs : List ApifyResult, readStored (writeStored rs) = rs.map clearBW) ∧
    (∀ (websites : List String) (userId : String) (token : Option String)
       (env : ApifyRunEnv) (eff : List Effect) (resp : AnalysisResponse),
       analyze_websites websites userId token env true = (eff, .ok resp) →
       Effect.dbWrite userId (writeStored resp.data) ∈ eff) := by
  refine ⟨readStored_writeStored, ?_⟩
  intro websites userId token env eff resp h
  unfold analyze_websites at h
  split at h
  · exact absurd h (by simp)
  · split at h
    · simp only [Prod.mk.injEq] at h
      obtain ⟨rfl, hr⟩ := h
      injection hr with hr
      subst hr
      simp
    · split at h <;>
      · simp only [Prod.mk.injEq] at h
        obtain ⟨rfl, hr⟩ := h
        injection hr with hr
        subst hr
        simp

/-- C3 witness: the round trip and the write effect at concrete
inputs. -/
theorem C3_store_roundtrip_witness :
    readStored (writeStored get_mock_data) = get_mock_data.map clearBW ∧
    Effect.dbWrite "u1"
        (writeStored (({ success := true, data := get_mock_data.map clearBW,
                         count := 2, note := some step1_note } : AnalysisResponse).data)) ∈
      [Effect.dbWrite "u1" (writeStored (get_mock_data.map clearBW))] :=
  ⟨C3_store_roundtrip.1 get_mock_data,
   C3_store_roundtrip.2 ["a.com"] "u1" none trivialEnv
     [Effect.dbWrite "u1" (writeStored (get_mock_data.map clearBW))]
     { success := true, data := get_mock_data.map clearBW,
       count := 2, note := some step1_note } rfl⟩

/-- C4: with the fixed bound `max_polls = 60`, the polling loop of
`analyze_domains` stops at the first status outside
`{"RUNNING", "READY"}` — poll `k` is the final status check — and
keeps polling while statuses stay inside that set. -/
theorem C4_poller_stops_outside :
    (∀ (statuses : Nat → String) (k : Nat), 1 ≤ k → k ≤ max_polls →
      (∀ j, 1 ≤ j → j < k → inProgress (statuses j) = true) →
      inProgress (statuses k) = false →
      polls_performed statuses = k) ∧
    (∀ (statuses : Nat → String) (k : Nat), k < max_polls →
      (∀ j, 1 ≤ j → j ≤ k → inProgress (statuses j) = true) →
      k < polls_performed statuses) :=
  ⟨polls_performed_stops, polls_performed_continues⟩

/-- C4 witness: a run that is terminal at the first poll is checked
exactly once; a run in progress through poll 5 has been checked more
than 5 times. -/
theorem C4_poller_witness :
    polls_performed (fun _ => "SUCCEEDED") = 1 ∧
    5 < polls_performed (fun _ => "RUNNING") :=
  ⟨C4_poller_stops_outside.1 (fun _ => "SUCCEEDED") 1 (by decide) (by decide)
      (fun j hj hlt => absurd hlt (by omega)) (by decide),
   C4_poller_stops_outside.2 (fun _ => "RUNNING") 5 (by decide)
      (fun j hj hle => rfl)⟩

/-- C5: a request with an empty websites list makes both POST
handlers raise HTTPException 400 immediately, with no external call
and no database access of any kind. -/
theorem C5_empty_websites_400 :
    ∀ (userId : String) (token : Option String) (env : ApifyRunEnv) (sup : Bool)
      (key : Option String) (stored : Option (List Json))
      (outcomes : String → BuiltWithApiOutcome) (err : Option String),
    analyze_websites [] userId token env sup = ([], .error (400, empty_websites_detail)) ∧
    analyze_tech_stack [] userId key stored outcomes sup err
      = ([], .error (400, empty_websites_detail)) := by
  intro userId token env sup key stored outcomes err
  constructor <;> rfl

/-- C6: the enricher `analyze_domain` is total and returns the static
mock fallback for the cleaned domain on every failure: missing or
placeholder credentials, timeout, any other exception, a non-200
response, and a 200 response from which no technology entry can be
extracted (including bodies lacking the expected nested structure). -/
theorem C6_enricher_fallback :
    ∀ (key : Option String) (domain : String) (outcome : BuiltWithApiOutcome),
      (credentialsMissing key = true →
        analyze_domain key domain outcome = get_mock_builtwith_data (clean_domain domain)) ∧
      (analyze_domain key domain .timeout = get_mock_builtwith_data (clean_domain domain)) ∧
      (analyze_domain key domain .otherError = get_mock_builtwith_data (clean_domain domain)) ∧
      (∀ (code : Nat) (body : Json), code ≠ 200 →
        analyze_domain key domain (.response code body)
          = get_mock_builtwith_data (clean_domain domain)) ∧
      (∀ body : Json, (parse_techs body).1 = [] →
        analyze_domain key domain (.response 200 body)
          = get_mock_builtwith_data (clean_domain domain)) := by
  intro key domain outcome
  refine ⟨fun hk => ?_, ?_, ?_, fun code body hc => ?_, fun body hp => ?_⟩
  · unfold analyze_domain
    simp [hk]
  · unfold analyze_domain
    by_cases hk : credentialsMissing key <;> simp [hk]
  · unfold analyze_domain
    by_cases hk : credentialsMissing key <;> simp [hk]
  · unfold analyze_domain
    by_cases hk : credentialsMissing key <;> simp [hk, hc]
  · unfold analyze_domain
    by_cases hk : credentialsMissing key <;>
      simp [hk, parse_builtwith_response, hp]

/-- C6 witness: concrete fallbacks — no key with a timeout, a 404,
and a 200 body with none of the expected structure. -/
theorem C6_enricher_fallback_witness :
    credentialsMissing none = true ∧
    analyze_domain none "https://www.github.com" .timeout
      = get_mock_builtwith_data (clean_domain "https://www.github.com") ∧
    analyze_domain (some "k") "https://www.github.com" (.response 404 .null)
      = get_mock_builtwith_data (clean_domain "https://www.github.com") ∧
    analyze_domain (some "k") "https://www.github.com" (.response 200 (.obj []))
      = get_mock_builtwith_data (clean_domain "https://www.github.com") :=
  ⟨rfl,
   (C6_enricher_fallback (some "k") "https://www.github.com" .timeout).2.1,
   (C6_enricher_fallback (some "k") "https://www.github.com" .timeout).2.2.2.1 404 .null
     (by decide),
   (C6_enricher_fallback (some "k") "https://www.github.com" .timeout).2.2.2.2 (.obj []) rfl⟩

/-- C7: the mock fallback returns exactly the predefined list for
every domain in the table — for linkedin.com the 8 listed entries —
and the generic 5-technology default for every domain outside it. -/
theorem C7_mock_table :
    (∀ (d : String) (ts : List Technology), (d, ts) ∈ mock_builtwith_table →
      get_mock_builtwith_data d = ⟨d, ts⟩) ∧
    (∀ d : String, d ∉ mock_builtwith_table.map Prod.fst →
      get_mock_builtwith_data d = ⟨d, default_mock_technologies⟩) ∧
    get_mock_builtwith_data "linkedin.com" =
      ⟨"linkedin.com",
       [⟨"React", "JavaScript Frameworks"⟩,
        ⟨"Node.js", "Web Servers"⟩,
        ⟨"Amazon CloudFront", "CDN"⟩,
        ⟨"Google Analytics", "Analytics"⟩,
        ⟨"Nginx", "Web Servers"⟩,
        ⟨"Amazon Web Services", "Cloud Computing"⟩,
        ⟨"Bootstrap", "CSS Frameworks"⟩,
        ⟨"jQuery", "JavaScript Libraries"⟩]⟩ ∧
    default_mock_technologies.length = 5 := by
  refine ⟨?_, ?_, rfl, rfl⟩
  · intro d ts hm
    simp only [mock_builtwith_table, List.mem_cons, List.mem_singleton] at hm
    rcases hm with h1 | h1 | h1 | h1 | h1 | h1
    · rw [Prod.mk.injEq] at h1; obtain ⟨rfl, rfl⟩ := h1; rfl
    · rw [Prod.mk.injEq] at h1; obtain ⟨rfl, rfl⟩ := h1; rfl
    · rw [Prod.mk.injEq] at h1; obtain ⟨rfl, rfl⟩ := h1; rfl
    · rw [Prod.mk.injEq] at h1; obtain ⟨rfl, rfl⟩ := h1; rfl
    · rw [Prod.mk.injEq] at h1; obtain ⟨rfl, rfl⟩ := h1; rfl
    · simp at h1
  · intro d hd
    unfold get_mock_builtwith_data
    rw [lookupStr_eq_none _ _ hd]
    rfl

/-- C7 witness: linkedin.com from the table, an unknown domain from
the default. -/
theorem C7_mock_table_witness :
    get_mock_builtwith_data "linkedin.com" =
      ⟨"linkedin.com",
       [⟨"React", "JavaScript Frameworks"⟩,
        ⟨"Node.js", "Web Servers"⟩,
        ⟨"Amazon CloudFront", "CDN"⟩,
        ⟨"Google Analytics", "Analytics"⟩,
        ⟨"Nginx", "Web Servers"⟩,
        ⟨"Amazon Web Services", "Cloud Computing"⟩,
        ⟨"Bootstrap", "CSS Frameworks"⟩,
        ⟨"jQuery", "JavaScript Libraries"⟩]⟩ ∧
    get_mock_builtwith_data "example.org" = ⟨"example.org", default_mock_technologies⟩ :=
  ⟨C7_mock_table.1 "linkedin.com" _ (by simp [mock_builtwith_table]),
   C7_mock_table.2.1 "example.org" (by decide)⟩

/-- C8 (counterexample): the cleaning is three Python `str.replace`
calls, which delete every occurrence, not only a leading prefix: on
`https://www.foo.www.bar.com` the code produces `foo.bar.com`,
whereas prefix-stripping as claimed would keep the inner `www.` and
give `foo.www.bar.com`. -/
theorem C8_clean_domain_counterexample :
    clean_domain "https://www.foo.www.bar.com" = "foo.bar.com" ∧
    clean_domain_stripping "https://www.foo.www.bar.com" = "foo.www.bar.com" ∧
    clean_domain "https://www.foo.www.bar.com"
      ≠ clean_domain_stripping "https://www.foo.www.bar.com" :=
  ⟨rfl, rfl, by decide⟩

/-- C8 (amended): the enricher keys its lookup on the domain with
every occurrence of "https://", then "http://", then "www." deleted,
and the domain field of the returned profile always equals this
cleaned name; on ordinary inputs this strips the scheme and the
leading "www.". -/
theorem C8_clean_domain_amended :
    (∀ (key : Option String) (domain : String) (outcome : BuiltWithApiOutcome),
      (analyze_domain key domain outcome).domain = clean_domain domain) ∧
    clean_domain "https://www.github.com" = "github.com" ∧
    clean_domain "http://example.com" = "example.com" ∧
    clean_domain "https://www.foo.www.bar.com" = "foo.bar.com" := by
  refine ⟨?_, rfl, rfl, rfl⟩
  intro key domain outcome
  unfold analyze_domain
  by_cases hk : credentialsMissing key
  · simp [hk, get_mock_builtwith_domain]
  · cases outcome with
    | timeout => simp [hk, get_mock_builtwith_domain]
    | otherError => simp [hk, get_mock_builtwith_domain]
    | response code body =>
      simp only [hk, Bool.false_eq_true, if_false]
      split
      · exact get_mock_builtwith_domain _
      · exact parse_builtwith_response_domain _ _

/-- C9: every successful response of POST /api/analyze and POST
/api/analyze-tech-stack, on every path including the mock and
fallback ones, has `count` equal to the length of `data`. -/
theorem C9_count_invariant :
    (∀ (websites : List String) (userId : String) (token : Option String)
       (env : ApifyRunEnv) (sup : Bool) (resp : AnalysisResponse),
       (analyze_websites websites userId token env sup).2 = .ok resp →
       resp.count = resp.data.length) ∧
    (∀ (websites : List String) (userId : String) (key : Option String)
       (stored : Option (List Json)) (outcomes : String → BuiltWithApiOutcome)
       (sup : Bool) (err : Option String) (resp : AnalysisResponse),
       (analyze_tech_stack websites userId key stored outcomes sup err).2 = .ok resp →
       resp.count = resp.data.length) := by
  constructor
  · intro websites userId token env sup resp h
    unfold analyze_websites at h
    split at h
    · exact absurd h (by simp)
    · split at h
      · simp only at h
        cases h
        rfl
      · split at h
        · simp only at h
          cases h
          rfl
        · simp only at h
          cases h
          rfl
  · intro websites userId key stored outcomes sup err resp h
    unfold analyze_tech_stack at h
    split at h
    · exact absurd h (by simp)
    · split at h
      · simp only at h
        cases h
        rfl
      · simp only at h
        cases h
        rfl

/-- C9 witness: the count of the concrete mock response equals its
data length. -/
theorem C9_count_invariant_witness :
    ({ success := true, data := get_mock_data.map clearBW,
       count := 2, note := some step1_note } : AnalysisResponse).count =
      ({ success := true, data := get_mock_data.map clearBW,
         count := 2, note := some step1_note } : AnalysisResponse).data.length :=
  C9_count_invariant.1 ["a.com"] "u" none trivialEnv true
    { success := true, data := get_mock_data.map clearBW,
      count := 2, note := some step1_note } rfl

/-- C10: whatever the credentials, domain, response status and body,
`analyze_domain` returns a profile with a non-empty technologies
list: empty extractions fall back to the mock table, whose entries
and default set are all non-empty. -/
theorem C10_nonempty_technologies :
    ∀ (key : Option String) (domain : String) (outcome : BuiltWithApiOutcome),
      (analyze_domain key domain outcome).technologies ≠ [] := by
  intro key domain outcome
  unfold analyze_domain
  by_cases hk : credentialsMissing key
  · simp [hk, mock_builtwith_nonempty]
  · cases outcome with
    | timeout => simp [hk, mock_builtwith_nonempty]
    | otherError => simp [hk, mock_builtwith_nonempty]
    | response code body =>
      simp only [hk, Bool.false_eq_true, if_false]
      split
      · exact mock_builtwith_nonempty _
      · exact parse_builtwith_response_nonempty _ _
